import Mathlib

/-!
Verification of the conversation-state-machine claims for the `lang-pz3`
repository.  The definitions below are a shallow embedding of the Python
sources `src/agent/workflow_fixed.py`, `src/agent/workflowbond7.py` and
`src/agent/standalone_bond7_agent.py`: each step handler becomes a pure
Lean function from the conversation state to a (possibly mutated) state
together with the partial update dictionary it returns, and the driver
loops become explicit folds over the supplied user inputs and external
model results.
-/

/-! ### String helpers

Structural (kernel-reducible) models of the Python string operations used
by the sources: `str.strip`, `str.lower`, `str.upper`, the `in` substring
test, `str.split(sep)` segment access and `str.format` placeholder
substitution.  They operate on the underlying character list so that
`decide`/`rfl` can evaluate them.
-/

/-- The apostrophe character, used to build the message literals. -/
def apos : String := String.mk [Char.ofNat 39]

/-- Python whitespace test (the subset that occurs in this repository). -/
def isSpaceChar (c : Char) : Bool :=
  c = ' ' || c = '\t' || c = '\n' || c = '\r'

/-- Model of Python `str.strip()`. -/
def trimStr (s : String) : String :=
  String.mk (((s.data.dropWhile isSpaceChar).reverse.dropWhile isSpaceChar).reverse)

/-- Model of Python `str.lower()`. -/
def lowerStr (s : String) : String :=
  String.mk (s.data.map Char.toLower)

/-- Model of Python `str.upper()`. -/
def upperStr (s : String) : String :=
  String.mk (s.data.map Char.toUpper)

/-- Does the list start with the given needle? -/
def listStartsWith : List Char → List Char → Bool
  | _, [] => true
  | [], _ :: _ => false
  | c :: cs, d :: ds => c = d && listStartsWith cs ds

/-- Does the haystack contain the needle as a contiguous sublist? -/
def containsSub (needle : List Char) : List Char → Bool
  | [] => listStartsWith [] needle
  | c :: t => listStartsWith (c :: t) needle || containsSub needle t

/-- Model of Python `needle in hay` for strings. -/
def strContains (hay needle : String) : Bool :=
  containsSub needle.data hay.data

/-- Characters after the first occurrence of the needle; `none` when the
needle does not occur.  Mirrors Python `hay.split(sep)` having length at
least two, with the remainder after the first separator. -/
def afterFirst (needle : List Char) : List Char → Option (List Char)
  | [] => none
  | c :: t =>
    if listStartsWith (c :: t) needle then some (List.drop needle.length (c :: t))
    else afterFirst needle t

/-- Characters before the next occurrence of the needle (the whole list
when the needle does not occur).  Together with `afterFirst` this gives
Python `hay.split(sep)[1]`, the segment between the first two separators. -/
def upToFirst (needle : List Char) : List Char → List Char
  | [] => []
  | c :: t =>
    if listStartsWith (c :: t) needle then [] else c :: upToFirst needle t

/-- Replace the first occurrence of the needle.  Models Python
`str.format` for the templates of this repository, which contain the
placeholder at most once. -/
def replaceFirst (needle repl : List Char) : List Char → List Char
  | [] => []
  | c :: t =>
    if listStartsWith (c :: t) needle then repl ++ List.drop needle.length (c :: t)
    else c :: replaceFirst needle repl t

/-! ### Conversation turns

Embedding of the `SystemMessage` / `HumanMessage` / `AIMessage` classes of
`langchain_core.messages` (and of the minimal fallback classes defined in
`standalone_bond7_agent.py`). -/

/-- One turn of the conversation log. -/
inductive Msg where
  | system (content : String)
  | human (content : String)
  | ai (content : String)
deriving DecidableEq

/-- The text carried by a turn. -/
def Msg.content : Msg → String
  | .system c => c
  | .human c => c
  | .ai c => c

/-- Is the turn a `HumanMessage`? -/
def Msg.isHuman : Msg → Bool
  | .human _ => true
  | _ => false

/-- Is the turn an `AIMessage`? -/
def Msg.isAI : Msg → Bool
  | .ai _ => true
  | _ => false

/-- Is the turn a `SystemMessage`? -/
def Msg.isSystem : Msg → Bool
  | .system _ => true
  | _ => false

/-- The last `HumanMessage` of a log
(`for message in reversed(messages): if isinstance(message, HumanMessage)`) . -/
def lastHumanMsg (msgs : List Msg) : Option Msg :=
  msgs.reverse.find? Msg.isHuman

/-- The last `AIMessage` of a log. -/
def lastAIMsg (msgs : List Msg) : Option Msg :=
  msgs.reverse.find? Msg.isAI

theorem lastHumanMsg_ne_nil {msgs : List Msg} {m : Msg}
    (h : lastHumanMsg msgs = some m) : msgs.isEmpty = false := by
  cases msgs with
  | nil => simp [lastHumanMsg] at h
  | cons a t => rfl

/-! ### Embedding of `src/agent/workflow_fixed.py`

The vendor-intake variant: a `WorkflowState` record, ten step handlers and
the hand-rolled driver loop of `main`.  Each handler is a function
`WState → WState × StepOutput`: the first component is the state after the
in-place mutations the Python handler performs (appends to
`state["messages"]`, the attempt-counter assignment), the second component
is the partial-update dictionary the handler returns.  External effects
are parameters: the sentiment model call is an `LLMResult`, the
`input()` call of `human_step` is a string.
-/

namespace WF

/-- Terminal sentinel: the value of `langgraph.graph.END`, also written
literally as a string in the source. -/
def endLabel : String := "__end__"

/-- System prompt of `initialize_workflow`. -/
def wfSystemPrompt : String :=
  "You are a professional project coordinator helping customers with home improvement projects.\nYou" ++ apos ++ "re currently helping with a kitchen faucet installation project.\nThe vendor is Dave" ++ apos ++ "s Plumbing."

/-- Greeting of `initialize_workflow`. -/
def wfGreeting : String :=
  "Hello! I" ++ apos ++ "m your project coordinator. I" ++ apos ++ "ll help you with your kitchen faucet installation. What" ++ apos ++ "s your name?"

/-- Acknowledgement built by `process_name`. -/
def thankYouName (name : String) : String :=
  "Thank you, " ++ name ++ "! I" ++ apos ++ "ll help you with your kitchen faucet installation. Would you like me to schedule an appointment with Dave" ++ apos ++ "s Plumbing for the installation?"

/-- Closing line of `process_schedule` and of `reschedule`. -/
def scheduleThanks : String :=
  "Thank you for letting me know. I" ++ apos ++ "ll have Dave" ++ apos ++ "s Plumbing contact you to confirm the details. Have a great day!"

/-- Follow-up question of `confirm_end`. -/
def confirmMore : String :=
  "What else can I help you with regarding your kitchen faucet installation?"

/-- Farewell of `confirm_end`. -/
def confirmBye (vendor : String) : String :=
  "Great! " ++ vendor ++ " will be in touch soon. Have a wonderful day!"

/-- Acknowledgement of `process_additional`. -/
def additionalMsg (vendor : String) : String :=
  "I" ++ apos ++ "ll make sure to pass this information to " ++ vendor ++ ". They will address this when they contact you. Is there anything else?"

/-- Terminal hand-off message of `analyze_sentiment`. -/
def handoffMsg : String :=
  "I" ++ apos ++ "ll have Dave" ++ apos ++ "s Plumbing contact you to discuss the scheduling details directly. Have a great day!"

/-- Apology returned by `analyze_sentiment` when the model is unavailable. -/
def apologyMsg : String :=
  "I apologize, but I" ++ apos ++ "m having trouble processing your request. Please try again later."

/-- Confirmation on a POSITIVE sentiment. -/
def positiveMsg : String :=
  "Great! I" ++ apos ++ "ll have Dave" ++ apos ++ "s Plumbing contact you to confirm the details. Have a great day!"

/-- Question on a NEGATIVE sentiment. -/
def negativeMsg : String :=
  "I understand. When would be a better time for you?"

/-- Re-prompt on an UNCLEAR sentiment before the cap. -/
def unclearReprompt : String :=
  "I" ++ apos ++ "m not sure if that" ++ apos ++ "s a yes or no. Would you like me to schedule the consultation for tomorrow?"

/-- Re-prompt returned by the exception branch of `analyze_sentiment`. -/
def tryAgainMsg : String :=
  "I" ++ apos ++ "m having trouble understanding. Could you please answer with a simple yes or no?"

/-- Closing message of `process_notes`. -/
def notesMsg : String :=
  "Thank you for providing those details. I" ++ apos ++ "ve noted them for the installation team. That concludes our conversation. Dave" ++ apos ++ "s Plumbing will be in touch soon to schedule your installation. Have a great day!"

/-- The `WorkflowState` record of `workflow_fixed.py`, with the `customer`,
`task` and `vendor` sub-dictionaries flattened into named fields.  The
`current_step` field models the *dictionary key* `state["current_step"]`
(read by `human_step`); the driver loop of `main` keeps its program
counter in a separate local variable and never writes this key. -/
structure WState where
  customerName : Option String
  taskDescription : Option String
  taskSchedule : Option String
  vendorName : String
  vendorEmail : String
  messages : List Msg
  current_step : Option String
  sentiment : String
  sentiment_attempts : Nat
deriving DecidableEq

/-- A partial update dictionary returned by a handler: `none` means the
key is absent from the returned dictionary. -/
structure StepOutput where
  customerName : Option (Option String) := none
  taskDescription : Option (Option String) := none
  taskSchedule : Option (Option String) := none
  vendorName : Option String := none
  vendorEmail : Option String := none
  messages : Option (List Msg) := none
  current_step : Option String := none
  sentiment : Option String := none
  sentiment_attempts : Option Nat := none
deriving DecidableEq

/-- Result of the external sentiment-model call inside `analyze_sentiment`:
`unavailable` models `get_llm()` returning `None`, `err` models
`llm.invoke` raising, `ok c` models a response with content `c`. -/
inductive LLMResult where
  | unavailable
  | err
  | ok (content : String)
deriving DecidableEq

/-- `validate_input`: the state of `main` always carries every key, so the
defaulting branches do not fire and the returned dictionary is
`{"current_step": "initialize", **validated_state}`. -/
def validate_input (s : WState) : WState × StepOutput :=
  (s,
   { customerName := some s.customerName,
     taskDescription := some s.taskDescription,
     taskSchedule := some s.taskSchedule,
     vendorName := some s.vendorName,
     vendorEmail := some s.vendorEmail,
     messages := some s.messages,
     sentiment := some s.sentiment,
     sentiment_attempts := some s.sentiment_attempts,
     current_step := some "initialize" })

/-- `initialize_workflow`: returns a fresh two-message list. -/
def initialize_workflow (s : WState) : WState × StepOutput :=
  (s,
   { messages := some [.system wfSystemPrompt, .ai wfGreeting],
     current_step := some "process_name" })

/-- `process_name`. -/
def process_name (s : WState) : WState × StepOutput :=
  if s.messages.isEmpty then (s, { current_step := some "initialize" })
  else
    match s.messages.getLast? with
    | none => (s, { current_step := some "initialize" })
    | some last =>
      if last.isHuman = false then (s, { current_step := some "human_step" })
      else
        let name := trimStr last.content
        let msgs := s.messages ++ [.ai (thankYouName name)]
        ({ s with messages := msgs },
         { current_step := some "human_step", messages := some msgs })

/-- `process_schedule`. -/
def process_schedule (s : WState) : WState × StepOutput :=
  if s.messages.isEmpty then (s, { current_step := some "initialize" })
  else
    match s.messages.getLast? with
    | none => (s, { current_step := some "initialize" })
    | some last =>
      if last.isHuman = false then (s, { current_step := some "human_step" })
      else
        let msgs := s.messages ++ [.ai scheduleThanks]
        ({ s with messages := msgs },
         { current_step := some endLabel, messages := some msgs })

/-- `confirm_end`: mutates the log in place and returns only the next
step label. -/
def confirm_end (s : WState) : WState × StepOutput :=
  match lastHumanMsg s.messages with
  | none => (s, { current_step := some "confirm_end" })
  | some last =>
    let lc := lowerStr (trimStr last.content)
    if strContains lc "yes" || strContains lc "yeah" then
      ({ s with messages := s.messages ++ [.ai confirmMore] },
       { current_step := some "process_additional" })
    else
      ({ s with messages := s.messages ++ [.ai (confirmBye s.vendorName)] },
       { current_step := some endLabel })

/-- `process_additional`: mutates the log in place and returns only the
next step label. -/
def process_additional (s : WState) : WState × StepOutput :=
  match lastHumanMsg s.messages with
  | none => (s, { current_step := some "process_additional" })
  | some _ =>
    ({ s with messages := s.messages ++ [.ai (additionalMsg s.vendorName)] },
     { current_step := some "confirm_end" })

/-- `analyze_sentiment`: the bounded-retry classification step.  The
attempt counter is read on entry; the in-place increment
`state["sentiment_attempts"] = attempts + 1` happens only after a model
response was received, so the exception branch returns the counter
unchanged. -/
def analyze_sentiment (llm : LLMResult) (s : WState) : WState × StepOutput :=
  let attempts := s.sentiment_attempts
  if 3 ≤ attempts then
    (s,
     { sentiment := some "unclear", messages := some [.ai handoffMsg],
       current_step := some endLabel })
  else if s.messages.isEmpty then (s, { current_step := some "process_name" })
  else
    match lastHumanMsg s.messages with
    | none => (s, { current_step := some "process_name" })
    | some _ =>
      match llm with
      | .unavailable =>
        (s, { messages := some [.ai apologyMsg], current_step := some endLabel })
      | .err =>
        (s,
         { sentiment_attempts := some s.sentiment_attempts,
           messages := some [.ai tryAgainMsg],
           current_step := some "analyze_sentiment" })
      | .ok content =>
        let sentiment := upperStr (trimStr content)
        let s2 := { s with sentiment_attempts := attempts + 1 }
        if sentiment = "POSITIVE" then
          (s2,
           { sentiment := some "positive",
             sentiment_attempts := some (attempts + 1),
             messages := some [.ai positiveMsg],
             current_step := some endLabel })
        else if sentiment = "NEGATIVE" then
          (s2,
           { sentiment := some "negative",
             sentiment_attempts := some (attempts + 1),
             messages := some [.ai negativeMsg],
             current_step := some "reschedule" })
        else if 2 ≤ attempts then
          (s2,
           { sentiment := some "unclear",
             sentiment_attempts := some (attempts + 1),
             messages := some [.ai handoffMsg],
             current_step := some endLabel })
        else
          (s2,
           { sentiment := some "unclear",
             sentiment_attempts := some (attempts + 1),
             messages := some [.ai unclearReprompt],
             current_step := some "analyze_sentiment" })

/-- `reschedule`. -/
def reschedule (s : WState) : WState × StepOutput :=
  if s.messages.isEmpty then (s, { current_step := some "initialize" })
  else
    match s.messages.getLast? with
    | none => (s, { current_step := some "initialize" })
    | some last =>
      if last.isHuman = false then (s, { current_step := some "human_step" })
      else
        let msgs := s.messages ++ [.ai scheduleThanks]
        ({ s with messages := msgs },
         { current_step := some endLabel, messages := some msgs })

/-- `process_notes`. -/
def process_notes (s : WState) : WState × StepOutput :=
  if s.messages.isEmpty then (s, { current_step := some "initialize" })
  else
    match s.messages.getLast? with
    | none => (s, { current_step := some "initialize" })
    | some last =>
      if last.isHuman = false then (s, { current_step := some "human_step" })
      else
        let msgs := s.messages ++ [.ai notesMsg]
        ({ s with messages := msgs },
         { current_step := some "end", messages := some msgs })

/-- `human_step`: reads one line of user input; an empty (whitespace)
input terminates, otherwise the input is appended as a human turn and the
next label is chosen from the surrounding context. -/
def human_step (input : String) (s : WState) : WState × StepOutput :=
  if trimStr input = "" then (s, { current_step := some endLabel })
  else
    let msgs := s.messages ++ [.human input]
    let s2 := { s with messages := msgs }
    if s.current_step = some "initialize" then
      (s2, { current_step := some "process_name", messages := some msgs })
    else if 1 < msgs.length &&
        strContains (lowerStr ((msgs.reverse.drop 1).headD (.ai "")).content) "schedule" then
      (s2, { current_step := some "process_schedule", messages := some msgs })
    else
      (s2, { current_step := some "process_name", messages := some msgs })

/-- The per-iteration external inputs of the driver loop: the line read by
`input()` and the result of the sentiment-model call. -/
structure Env where
  humanInput : String
  llm : LLMResult

/-- The step registry (the `workflow` dictionary of `main`), as a lookup
by label. -/
def stepHandler (env : Env) (cs : String) : Option (WState → WState × StepOutput) :=
  if cs = "validate" then some validate_input
  else if cs = "initialize" then some initialize_workflow
  else if cs = "process_name" then some process_name
  else if cs = "process_schedule" then some process_schedule
  else if cs = "confirm_end" then some confirm_end
  else if cs = "process_additional" then some process_additional
  else if cs = "analyze_sentiment" then some (analyze_sentiment env.llm)
  else if cs = "reschedule" then some reschedule
  else if cs = "process_notes" then some process_notes
  else if cs = "human_step" then some (human_step env.humanInput)
  else none

/-- The state-update merge of `main` (lines 396-408): every key of the
step output other than `current_step` is merged into the state.  A
dictionary value is merged per sub-key (which, for the flattened fields
here, overwrites them); every other value -- including the *list-valued*
`messages` key -- overwrites the state field wholesale.  In particular a
returned `messages` list REPLACES the log rather than extending it. -/
def mergeOutput (s : WState) (o : StepOutput) : WState :=
  { s with
    customerName := o.customerName.getD s.customerName,
    taskDescription := o.taskDescription.getD s.taskDescription,
    taskSchedule := o.taskSchedule.getD s.taskSchedule,
    vendorName := o.vendorName.getD s.vendorName,
    vendorEmail := o.vendorEmail.getD s.vendorEmail,
    messages := o.messages.getD s.messages,
    sentiment := o.sentiment.getD s.sentiment,
    sentiment_attempts := o.sentiment_attempts.getD s.sentiment_attempts }

/-- One iteration of the driver loop of `main`: look up the handler for
the current label (an unknown label aborts the loop, modelled as a
no-op), run it, merge its output, and take the returned `current_step`
as the next label (keeping the old one when the key is absent). -/
def driverStep (env : Env) (cs : String) (s : WState) : String × WState :=
  match stepHandler env cs with
  | none => (cs, s)
  | some h =>
    let r := h s
    ((r.2.current_step).getD cs, mergeOutput r.1 r.2)

/-- A finite prefix of the driver loop execution, one `Env` per executed
iteration. -/
def runSteps : List Env → String → WState → String × WState
  | [], cs, s => (cs, s)
  | e :: rest, cs, s =>
    let r := driverStep e cs s
    runSteps rest r.1 r.2

/-- The initial state built at the top of `main`. -/
def initialState : WState :=
  { customerName := none,
    taskDescription := some "Kitchen faucet installation",
    taskSchedule := none,
    vendorName := "Dave" ++ apos ++ "s Plumbing",
    vendorEmail := "dave@plumbing.com",
    messages := [],
    current_step := none,
    sentiment := "neutral",
    sentiment_attempts := 0 }

end WF

/-! ### Embedding of `src/agent/workflowbond7.py`

The 007 productivity agent as a langgraph workflow.  The claims concern
the individual step handlers `generate_greeting` and `process_input`, so
only those (and the state/update records they need) are embedded.  The
intent-classifier call of `process_input` is a parameter. -/

namespace Bond7

/-- The `AgentState` of `workflowbond7.py`, with `state["user"]["name"]`
flattened into `userName` and the todo records reduced to their task
text. -/
structure BState where
  userName : Option String
  todos : List String
  messages : List Msg
  current_step : String
  skills_used : List String
deriving DecidableEq

/-- A partial update dictionary returned by a handler of
`workflowbond7.py`; `user` carries the returned `{"name": ...}`
sub-dictionary. -/
structure BOutput where
  user : Option (Option String) := none
  todos : Option (List String) := none
  messages : Option (List Msg) := none
  current_step : Option String := none
  skills_used : Option (List String) := none
deriving DecidableEq

/-- Outcome of `json.loads(intent_response.content)` together with the
`intent_data.get("intent", ...)` lookup: `fail` when the response content
is not a JSON object (the `except` branch fires), `ok v` when it is one,
with `v` the value of its `"intent"` key if present. -/
inductive IntentResult where
  | fail
  | ok (intent : Option String)
deriving DecidableEq

/-- System prompt of `generate_greeting`. -/
def bondSystemPrompt : String :=
  "You are 007, a personal productivity agent.\nYou help users manage their tasks, find information, and boost their productivity.\nYou initially have some limitations, but those will improve soon.\nYour current skills:\n1. Remember and manage to-do items\n2. Call external services to shop for what the user wants and provide information"

/-- Personalized greeting of `generate_greeting`. -/
def persGreeting (name : String) : String :=
  "Hello " ++ name ++ "! I" ++ apos ++ "m 007, your personal productivity agent. How can I help you today?"

/-- Generic, name-requesting greeting of `generate_greeting`. -/
def genericGreeting : String :=
  "Hello! I" ++ apos ++ "m 007, your personal productivity agent. I don" ++ apos ++ "t think we" ++ apos ++ "ve met before. What" ++ apos ++ "s your name?"

/-- Acknowledgement of the captured name in `process_input`. -/
def niceToMeet (name : String) : String :=
  "Nice to meet you, " ++ name ++ "! How can I help you today?"

/-- Fallback when the model is unavailable in `process_input`. -/
def troubleMsg : String :=
  "I" ++ apos ++ "m sorry, but I" ++ apos ++ "m having trouble processing your request right now. Please try again later."

/-- `generate_greeting`: a personalized greeting when the user name is a
truthy value, a generic name-requesting greeting otherwise; always one
system and one assistant turn, always `current_step = "process_input"`. -/
def generate_greeting (s : BState) : BOutput :=
  let greeting :=
    match s.userName with
    | some n => if n = "" then genericGreeting else persGreeting n
    | none => genericGreeting
  { messages := some [.system bondSystemPrompt, .ai greeting],
    current_step := some "process_input" }

/-- The idempotent skill-set insert of `process_input`
(`if intent not in skills_used: skills_used.append(intent)`). -/
def recordSkill (skills_used : List String) (intent : String) : List String :=
  if intent ∈ skills_used then skills_used else skills_used ++ [intent]

/-- The guard of the name-capture branch of `process_input`:
`state["user"].get("name") is None and isinstance(latest_message,
HumanMessage)` together with the inner `len(name) > 0` check. -/
def nameCaptureCond (s : BState) (latest : Msg) : Bool :=
  s.userName = none && latest.isHuman && trimStr latest.content ≠ ""

/-- `process_input` of `workflowbond7.py`.  `modelAvailable` models
`_get_model("openai")` returning a usable model; `ir` is the parsed
classifier response.  The result is `none` exactly when the handler
raises before returning (the unguarded `state["messages"][-1]` on an
empty log). -/
def process_input (modelAvailable : Bool) (ir : IntentResult) (s : BState) :
    Option BOutput :=
  match s.messages.getLast? with
  | none => none
  | some latest =>
    if nameCaptureCond s latest then
      some { user := some (some (trimStr latest.content)),
             messages := some [.ai (niceToMeet (trimStr latest.content))],
             current_step := some "process_input" }
    else if modelAvailable = false then
      some { messages := some [.ai troubleMsg], current_step := some "end_session" }
    else
      match ir with
      | .fail => some { current_step := some "general_question" }
      | .ok intentOpt =>
        let intent := intentOpt.getD "general_question"
        some { skills_used := some (recordSkill s.skills_used intent),
               current_step := some intent }

end Bond7

/-! ### Embedding of `src/agent/standalone_bond7_agent.py`

The standalone 007 agent: `process_input` (which also performs the
identity capture), and the interactive loop of `run_agent`.  The free-text
responder call is a parameter `respond`; `respond msgs = none` models the
call raising (the fallback response is substituted), `some t` a response
with content `t`. -/

namespace Agent007

/-- The `AgentState` of `standalone_bond7_agent.py`, flattened like the
others. -/
structure AState where
  userName : Option String
  todos : List String
  current_step : String
  messages : List Msg
  skills_used : List String
deriving DecidableEq

/-- The fresh state built by `AgentState.__init__`. -/
def initialAState : AState :=
  { userName := none, todos := [], current_step := "initialize_agent",
    messages := [], skills_used := [] }

/-- The known prefix phrase of the identity capture. -/
def myNameIs : String := "my name is "

/-- The name-introduction extraction of `process_input`
(`content.split("my name is ")`, taking `[1]` stripped when the phrase is
present, else the whole content stripped). -/
def extractName (content : String) : String :=
  match afterFirst myNameIs.data content.data with
  | some rest => trimStr (String.mk (upToFirst myNameIs.data rest))
  | none => trimStr content

/-- The name-introduction context detection of `process_input`: at least
two messages, and the last assistant turn before the final message asks
for the name. -/
def isNameIntroduction (messages : List Msg) : Bool :=
  if 2 ≤ messages.length then
    match lastAIMsg messages.dropLast with
    | some m => strContains (lowerStr m.content) ("what" ++ apos ++ "s your name")
    | none => false
  else false

/-- Fallback response when the responder call raises. -/
def fallbackResponse : String :=
  "I understand. Is there anything specific you" ++ apos ++ "d like help with today?"

/-- `process_input` of `standalone_bond7_agent.py`.  Returns the full
updated state, as the Python function returns `{**state, ...}`. -/
def process_input (respond : List Msg → Option String) (s : AState) : AState :=
  match lastHumanMsg s.messages with
  | none => s
  | some last_human =>
    let s1 :=
      if isNameIntroduction s.messages then
        { s with userName := some (extractName last_human.content) }
      else s
    let response :=
      match respond s1.messages with
      | some t => t
      | none => fallbackResponse
    let msgs := s1.messages ++ [.ai response]
    let skills :=
      if strContains (lowerStr last_human.content) "task" then
        Bond7.recordSkill s1.skills_used "task_management"
      else s1.skills_used
    { s1 with messages := msgs, skills_used := skills,
              current_step := "process_input" }

/-- The exit keywords recognized by the interactive loop of `run_agent`. -/
def exitKeywords : List String := ["exit", "quit", "bye"]

/-- The interactive loop of `run_agent`, over a finite list of raw input
lines.  Returns the final state, the printed agent lines, and the number
of `process_input` invocations performed. -/
def runAgentLoop (respond : List Msg → Option String) (s : AState) :
    List String → AState × List String × Nat
  | [] => (s, [], 0)
  | raw :: rest =>
    let user_input := trimStr raw
    if lowerStr user_input ∈ exitKeywords then (s, ["Agent: Goodbye!"], 0)
    else
      let s1 := { s with messages := s.messages ++ [.human user_input] }
      let s2 := process_input respond s1
      let line :=
        match lastAIMsg s2.messages with
        | some m => ["Agent: " ++ m.content]
        | none => []
      let r := runAgentLoop respond s2 rest
      (r.1, line ++ r.2.1, r.2.2 + 1)

end Agent007

/-! ### Embedding of `MockLanguageModel` from `standalone_bond7_agent.py`

The scripted stand-in responder.  Its only mutable state is the
`call_count` counter (and the constant `name`, used for logging only), so
a call is a function from the counter and the input messages to the new
counter and the response text. -/

namespace Mock

/-- The `\x7bname\x7d` placeholder of the response templates. -/
def namePlaceholder : String := "\x7bname\x7d"

/-- The phrase searched for in system prompts by the user-name
extraction. -/
def userNameIs : String := "user" ++ apos ++ "s name is "

/-- Template of the `greeting` response. -/
def greetingTpl : String :=
  "Hello! I" ++ apos ++ "m 007, your personal productivity agent. I don" ++ apos ++ "t think we" ++ apos ++ "ve met before. What" ++ apos ++ "s your name?"

/-- Template of the `name_intro` response. -/
def nameIntroTpl : String :=
  "Nice to meet you, " ++ namePlaceholder ++ "! How can I help you today? I can help with tasks, finding information, and more."

/-- Template of the `task_added` response. -/
def taskAddedTpl : String :=
  "I" ++ apos ++ "ve added that task to your list. Is there anything else you" ++ apos ++ "d like me to help you with?"

/-- Template of the `fallback` response. -/
def fallbackTpl : String :=
  "I understand. How can I assist you further?"

/-- Template of the `name_recall` response. -/
def nameRecallTpl : String :=
  "Your name is " ++ namePlaceholder ++ ". Is there anything else I can help you with?"

/-- The `self.responses` dictionary, looked up by key. -/
def responses (key : String) : String :=
  if key = "greeting" then greetingTpl
  else if key = "name_intro" then nameIntroTpl
  else if key = "task_added" then taskAddedTpl
  else if key = "name_recall" then nameRecallTpl
  else fallbackTpl

/-- The user-name extraction loop of `__call__`: scan every system
message for the phrase, take the text between the phrase and the next
full stop, and keep it when it is non-empty and not `unknown`; the last
hit wins, with `"user"` as the default. -/
def extractUserName (messages : List Msg) : String :=
  messages.foldl
    (fun user_name msg =>
      if msg.isSystem && strContains msg.content userNameIs then
        match afterFirst userNameIs.data msg.content.data with
        | some rest =>
          let name_part :=
            trimStr (String.mk (upToFirst (".".data) (upToFirst userNameIs.data rest)))
          if name_part ≠ "" && lowerStr name_part ≠ "unknown" then name_part
          else user_name
        | none => user_name
      else user_name)
    "user"

/-- The response-key selection of `__call__`, driven by the last message
and the message count. -/
def responseKey (messages : List Msg) : String :=
  match messages.getLast? with
  | some last_msg =>
    if last_msg.isHuman then
      let content := lowerStr last_msg.content
      if strContains content "what" && strContains content "name" then "name_recall"
      else if strContains content "task" || strContains content "todo" ||
          strContains content "reminder" || strContains content "schedule" then
        "task_added"
      else if messages.length = 3 &&
          (match messages with
           | m0 :: m1 :: _ => m0.isSystem && m1.isAI
           | _ => false) then
        "name_intro"
      else "fallback"
    else "fallback"
  | none => "fallback"

/-- The response text computed by `__call__` from the input messages:
template lookup followed by the `format(name=...)` substitution when the
placeholder occurs. -/
def mockResponse (messages : List Msg) : String :=
  let user_name := extractUserName messages
  let template := responses (responseKey messages)
  if strContains template namePlaceholder then
    String.mk (replaceFirst namePlaceholder.data user_name.data template.data)
  else template

/-- One call of the mock model: the counter is incremented, the response
is computed from the messages. -/
def mockCall (call_count : Nat) (messages : List Msg) : Nat × String :=
  (call_count + 1, mockResponse messages)

/-- A run of the mock model over a sequence of message lists, threading
the internal counter through the calls. -/
def mockRunSeq (call_count : Nat) : List (List Msg) → Nat × List String
  | [] => (call_count, [])
  | m :: ms =>
    let r := mockCall call_count m
    let rest := mockRunSeq r.1 ms
    (rest.1, r.2 :: rest.2)

end Mock

/-! ### Claim theorems -/

/-- Claim C9: the scripted stand-in responder (`MockLanguageModel`) is
deterministic: one call, and any run over a sequence of message lists,
produces response texts that depend only on the input messages and not on
the internal call counter. -/
theorem mock_model_deterministic :
    (∀ (c1 c2 : Nat) (msgs : List Msg),
        (Mock.mockCall c1 msgs).2 = (Mock.mockCall c2 msgs).2) ∧
    (∀ (c1 c2 : Nat) (seqs : List (List Msg)),
        (Mock.mockRunSeq c1 seqs).2 = (Mock.mockRunSeq c2 seqs).2) := by
  refine ⟨fun c1 c2 msgs => rfl, fun c1 c2 seqs => ?_⟩
  induction seqs generalizing c1 c2 with
  | nil => rfl
  | cons m ms ih => simpa [Mock.mockRunSeq, Mock.mockCall] using ih (c1 + 1) (c2 + 1)

/-- Claim C4: whenever the classifier response fails to parse as the
expected structured JSON, `process_input` of `workflowbond7.py` returns a
plain update whose `current_step` is `general_question`, and no exception
escapes the step. -/
theorem process_input_parse_failure_defaults (s : Bond7.BState) (latest : Msg)
    (hl : s.messages.getLast? = some latest)
    (hcap : Bond7.nameCaptureCond s latest = false) :
    Bond7.process_input true .fail s = some { current_step := some "general_question" } := by
  simp [Bond7.process_input, hl, hcap]

/-- Concrete state for the C4 witness. -/
def c4state : Bond7.BState :=
  ⟨some "Ann", [], [Msg.human "what is 2+2?"], "process_input", []⟩

theorem process_input_parse_failure_defaults_witness :
    Bond7.process_input true .fail c4state =
      some { current_step := some "general_question" } :=
  process_input_parse_failure_defaults c4state (Msg.human "what is 2+2?")
    (by rfl) (by decide)

/-- Claim C8: the skill recording of `process_input` is an idempotent
insert: with the classified label already recorded, the returned
`skills_used` collection is unchanged, and no-duplication (hence each
label occurring at most once) is preserved by every recording. -/
theorem skill_recording_idempotent (s : Bond7.BState) (latest : Msg) (l : String)
    (hl : s.messages.getLast? = some latest)
    (hcap : Bond7.nameCaptureCond s latest = false) :
    Bond7.process_input true (.ok (some l)) s =
      some { skills_used := some (Bond7.recordSkill s.skills_used l),
             current_step := some l } ∧
    (l ∈ s.skills_used → Bond7.recordSkill s.skills_used l = s.skills_used) ∧
    (s.skills_used.Nodup → (Bond7.recordSkill s.skills_used l).Nodup ∧
        (Bond7.recordSkill s.skills_used l).count l ≤ 1) := by
  refine ⟨by simp [Bond7.process_input, hl, hcap], ?_, ?_⟩
  · intro hmem
    simp [Bond7.recordSkill, hmem]
  · intro hnd
    by_cases hmem : l ∈ s.skills_used
    · refine ⟨by simpa [Bond7.recordSkill, hmem] using hnd, ?_⟩
      simpa [Bond7.recordSkill, hmem] using (List.nodup_iff_count_le_one.mp hnd l)
    · constructor
      · simp only [Bond7.recordSkill, if_neg hmem]
        exact List.Nodup.append hnd (List.nodup_singleton l)
          (by simpa using fun h => hmem h)
      · simp [Bond7.recordSkill, hmem, List.count_append,
          List.count_eq_zero_of_not_mem hmem]

/-- Concrete state for the C8 witness. -/
def c8state : Bond7.BState :=
  ⟨some "Ann", [], [Msg.human "add a task"], "process_input", ["add_todo"]⟩

theorem skill_recording_idempotent_witness :
    (Bond7.process_input true (.ok (some "add_todo")) c8state =
      some { skills_used := some (Bond7.recordSkill c8state.skills_used "add_todo"),
             current_step := some "add_todo" }) ∧
    ("add_todo" ∈ c8state.skills_used →
      Bond7.recordSkill c8state.skills_used "add_todo" = c8state.skills_used) ∧
    (c8state.skills_used.Nodup →
      (Bond7.recordSkill c8state.skills_used "add_todo").Nodup ∧
      (Bond7.recordSkill c8state.skills_used "add_todo").count "add_todo" ≤ 1) :=
  skill_recording_idempotent c8state (Msg.human "add a task") "add_todo"
    (by rfl) (by decide)

/-- Claim C7: `generate_greeting` of `workflowbond7.py` always appends
exactly one assistant turn and always returns
`current_step = "process_input"`; the greeting is the personalized one
exactly when the user name is a truthy value and the generic
name-requesting one otherwise. -/
theorem generate_greeting_spec :
    (∀ s : Bond7.BState,
        (Bond7.generate_greeting s).current_step = some "process_input" ∧
        ((Bond7.generate_greeting s).messages.getD []).countP (fun m => m.isAI) = 1) ∧
    (∀ (s : Bond7.BState) (n : String), s.userName = some n → n ≠ "" →
        Bond7.generate_greeting s =
          { messages := some [.system Bond7.bondSystemPrompt, .ai (Bond7.persGreeting n)],
            current_step := some "process_input" }) ∧
    (∀ s : Bond7.BState, s.userName = none ∨ s.userName = some "" →
        Bond7.generate_greeting s =
          { messages := some [.system Bond7.bondSystemPrompt, .ai Bond7.genericGreeting],
            current_step := some "process_input" }) ∧
    strContains Bond7.genericGreeting ("What" ++ apos ++ "s your name?") = true := by
  refine ⟨?_, ?_, ?_, by decide⟩
  · intro s
    cases hn : s.userName with
    | none => simp [Bond7.generate_greeting, hn, Msg.isAI, Msg.isSystem]
    | some n =>
      by_cases he : n = "" <;>
        simp [Bond7.generate_greeting, hn, he, Msg.isAI, Msg.isSystem]
  · intro s n hn hne
    simp [Bond7.generate_greeting, hn, hne]
  · rintro s (hn | hn) <;> simp [Bond7.generate_greeting, hn]

/-- Concrete states for the C7 witness. -/
def c7known : Bond7.BState := ⟨some "Ann", [], [], "generate_greeting", []⟩

/-- Concrete anonymous state for the C7 witness. -/
def c7anon : Bond7.BState := ⟨none, [], [], "generate_greeting", []⟩

theorem generate_greeting_spec_witness :
    ((Bond7.generate_greeting c7known).current_step = some "process_input" ∧
      ((Bond7.generate_greeting c7known).messages.getD []).countP (fun m => m.isAI) = 1) ∧
    (Bond7.generate_greeting c7known =
      { messages := some [.system Bond7.bondSystemPrompt,
                          .ai (Bond7.persGreeting "Ann")],
        current_step := some "process_input" }) ∧
    (Bond7.generate_greeting c7anon =
      { messages := some [.system Bond7.bondSystemPrompt, .ai Bond7.genericGreeting],
        current_step := some "process_input" }) :=
  ⟨generate_greeting_spec.1 c7known,
   generate_greeting_spec.2.1 c7known "Ann" (by rfl) (by decide),
   generate_greeting_spec.2.2.1 c7anon (Or.inl (by rfl))⟩

/-- Claim C10: when the sentiment-model call raises, `analyze_sentiment`
returns with `sentiment_attempts` unchanged from its entry value and
`current_step` set back to `analyze_sentiment` itself; the merged state
keeps the counter, so external failures never count against the retry
cap. -/
theorem analyze_sentiment_error_no_increment (s : WF.WState) (m : Msg)
    (hlt : s.sentiment_attempts < 3)
    (hm : lastHumanMsg s.messages = some m) :
    WF.analyze_sentiment .err s =
      (s, { sentiment_attempts := some s.sentiment_attempts,
            messages := some [.ai WF.tryAgainMsg],
            current_step := some "analyze_sentiment" }) ∧
    (WF.mergeOutput (WF.analyze_sentiment .err s).1
        (WF.analyze_sentiment .err s).2).sentiment_attempts = s.sentiment_attempts := by
  have hne : s.messages.isEmpty = false := lastHumanMsg_ne_nil hm
  have h3 : ¬ 3 ≤ s.sentiment_attempts := by omega
  constructor
  · simp [WF.analyze_sentiment, h3, hne, hm]
  · simp [WF.analyze_sentiment, h3, hne, hm, WF.mergeOutput]

/-- Concrete state for the C10 witness. -/
def c10state : WF.WState :=
  { WF.initialState with messages := [.ai WF.wfGreeting, .human "hmm"],
                         sentiment_attempts := 1 }

theorem analyze_sentiment_error_no_increment_witness :
    (WF.analyze_sentiment .err c10state =
      (c10state, { sentiment_attempts := some c10state.sentiment_attempts,
                   messages := some [.ai WF.tryAgainMsg],
                   current_step := some "analyze_sentiment" })) ∧
    (WF.mergeOutput (WF.analyze_sentiment .err c10state).1
        (WF.analyze_sentiment .err c10state).2).sentiment_attempts =
      c10state.sentiment_attempts :=
  analyze_sentiment_error_no_increment c10state (Msg.human "hmm")
    (by decide) (by rfl)

/-- An ambiguous sentiment classification: the stripped, upper-cased
response content is neither `POSITIVE` nor `NEGATIVE`, so the step takes
its UNCLEAR branch. -/
def WF.ambiguousSentiment (c : String) : Prop :=
  upperStr (trimStr c) ≠ "POSITIVE" ∧ upperStr (trimStr c) ≠ "NEGATIVE"

/-- Claim C1: three consecutive ambiguous classifications of the
scheduling reply.  With the counter at 0 and then 1, the step re-prompts
once and routes back to itself; with the counter at 2 (the third
consecutive ambiguous classification), the step returns the terminal
sentinel with exactly one hand-off assistant message, and once the cap is
reached the step returns that same terminal hand-off regardless of any
further input. -/
theorem analyze_sentiment_three_unclear (s0 s1 s2 : WF.WState)
    (c0 c1 c2 : String) (m0 m1 m2 : Msg)
    (h0 : s0.sentiment_attempts = 0) (h1 : s1.sentiment_attempts = 1)
    (h2 : s2.sentiment_attempts = 2)
    (hm0 : lastHumanMsg s0.messages = some m0)
    (hm1 : lastHumanMsg s1.messages = some m1)
    (hm2 : lastHumanMsg s2.messages = some m2)
    (ha0 : WF.ambiguousSentiment c0) (ha1 : WF.ambiguousSentiment c1)
    (ha2 : WF.ambiguousSentiment c2) :
    ((WF.analyze_sentiment (.ok c0) s0).2.current_step = some "analyze_sentiment" ∧
      (WF.analyze_sentiment (.ok c0) s0).2.sentiment_attempts = some 1 ∧
      (WF.analyze_sentiment (.ok c0) s0).2.messages = some [.ai WF.unclearReprompt]) ∧
    ((WF.analyze_sentiment (.ok c1) s1).2.current_step = some "analyze_sentiment" ∧
      (WF.analyze_sentiment (.ok c1) s1).2.sentiment_attempts = some 2 ∧
      (WF.analyze_sentiment (.ok c1) s1).2.messages = some [.ai WF.unclearReprompt]) ∧
    ((WF.analyze_sentiment (.ok c2) s2).2.current_step = some WF.endLabel ∧
      (WF.analyze_sentiment (.ok c2) s2).2.sentiment_attempts = some 3 ∧
      (WF.analyze_sentiment (.ok c2) s2).2.messages = some [.ai WF.handoffMsg]) ∧
    (∀ (llm : WF.LLMResult) (s : WF.WState), 3 ≤ s.sentiment_attempts →
      (WF.analyze_sentiment llm s).2.current_step = some WF.endLabel ∧
      (WF.analyze_sentiment llm s).2.messages = some [.ai WF.handoffMsg]) := by
  obtain ⟨hp0, hn0⟩ := ha0
  obtain ⟨hp1, hn1⟩ := ha1
  obtain ⟨hp2, hn2⟩ := ha2
  refine ⟨?_, ?_, ?_, ?_⟩
  · simp [WF.analyze_sentiment, h0, lastHumanMsg_ne_nil hm0, hm0, hp0, hn0]
  · simp [WF.analyze_sentiment, h1, lastHumanMsg_ne_nil hm1, hm1, hp1, hn1]
  · simp [WF.analyze_sentiment, h2, lastHumanMsg_ne_nil hm2, hm2, hp2, hn2]
  · intro llm s h3
    simp [WF.analyze_sentiment, if_pos h3]

/-- Concrete state with the counter at 0 for the C1 witness. -/
def c1s0 : WF.WState := { WF.initialState with messages := [.human "hm"] }

/-- Concrete state with the counter at 1 for the C1 witness. -/
def c1s1 : WF.WState :=
  { WF.initialState with messages := [.human "hm"], sentiment_attempts := 1 }

/-- Concrete state with the counter at 2 for the C1 witness. -/
def c1s2 : WF.WState :=
  { WF.initialState with messages := [.human "hm"], sentiment_attempts := 2 }

/-- Concrete state with the counter at the cap for the C1 witness. -/
def c1s3 : WF.WState :=
  { WF.initialState with messages := [.human "hm"], sentiment_attempts := 3 }

theorem analyze_sentiment_three_unclear_witness :
    ((WF.analyze_sentiment (.ok "maybe") c1s0).2.current_step = some "analyze_sentiment" ∧
      (WF.analyze_sentiment (.ok "maybe") c1s0).2.sentiment_attempts = some 1 ∧
      (WF.analyze_sentiment (.ok "maybe") c1s0).2.messages = some [.ai WF.unclearReprompt]) ∧
    ((WF.analyze_sentiment (.ok "maybe") c1s1).2.current_step = some "analyze_sentiment" ∧
      (WF.analyze_sentiment (.ok "maybe") c1s1).2.sentiment_attempts = some 2 ∧
      (WF.analyze_sentiment (.ok "maybe") c1s1).2.messages = some [.ai WF.unclearReprompt]) ∧
    ((WF.analyze_sentiment (.ok "maybe") c1s2).2.current_step = some WF.endLabel ∧
      (WF.analyze_sentiment (.ok "maybe") c1s2).2.sentiment_attempts = some 3 ∧
      (WF.analyze_sentiment (.ok "maybe") c1s2).2.messages = some [.ai WF.handoffMsg]) ∧
    ((WF.analyze_sentiment (.ok "whatever") c1s3).2.current_step = some WF.endLabel ∧
      (WF.analyze_sentiment (.ok "whatever") c1s3).2.messages = some [.ai WF.handoffMsg]) := by
  have h := analyze_sentiment_three_unclear c1s0 c1s1 c1s2 "maybe" "maybe" "maybe"
    (Msg.human "hm") (Msg.human "hm") (Msg.human "hm")
    (by rfl) (by rfl) (by rfl) (by rfl) (by rfl) (by rfl)
    (by constructor <;> decide) (by constructor <;> decide)
    (by constructor <;> decide)
  exact ⟨h.1, h.2.1, h.2.2.1, h.2.2.2 (.ok "whatever") c1s3 (by decide)⟩

/-- Unfolding of one driver iteration when the label resolves. -/
theorem driverStep_some (env : WF.Env) (cs : String) (s : WF.WState)
    (f : WF.WState → WF.WState × WF.StepOutput)
    (h : WF.stepHandler env cs = some f) :
    WF.driverStep env cs s =
      (((f s).2.current_step).getD cs, WF.mergeOutput (f s).1 (f s).2) := by
  unfold WF.driverStep
  rw [h]

/-- Unfolding of one driver iteration when the label is unknown. -/
theorem driverStep_none (env : WF.Env) (cs : String) (s : WF.WState)
    (h : WF.stepHandler env cs = none) :
    WF.driverStep env cs s = (cs, s) := by
  unfold WF.driverStep
  rw [h]

/-- Merged attempt counter through `process_name`: unchanged. -/
theorem attempts_process_name (s : WF.WState) :
    (WF.mergeOutput (WF.process_name s).1 (WF.process_name s).2).sentiment_attempts =
      s.sentiment_attempts := by
  by_cases he : s.messages.isEmpty = true
  · simp [WF.process_name, he, WF.mergeOutput]
  · cases hl : s.messages.getLast? with
    | none => simp [WF.process_name, he, hl, WF.mergeOutput]
    | some last =>
      by_cases hh : last.isHuman = false <;>
        simp [WF.process_name, he, hl, hh, WF.mergeOutput]

/-- Merged attempt counter through `process_schedule`: unchanged. -/
theorem attempts_process_schedule (s : WF.WState) :
    (WF.mergeOutput (WF.process_schedule s).1 (WF.process_schedule s).2).sentiment_attempts =
      s.sentiment_attempts := by
  by_cases he : s.messages.isEmpty = true
  · simp [WF.process_schedule, he, WF.mergeOutput]
  · cases hl : s.messages.getLast? with
    | none => simp [WF.process_schedule, he, hl, WF.mergeOutput]
    | some last =>
      by_cases hh : last.isHuman = false <;>
        simp [WF.process_schedule, he, hl, hh, WF.mergeOutput]

/-- Merged attempt counter through `confirm_end`: unchanged. -/
theorem attempts_confirm_end (s : WF.WState) :
    (WF.mergeOutput (WF.confirm_end s).1 (WF.confirm_end s).2).sentiment_attempts =
      s.sentiment_attempts := by
  cases hm : lastHumanMsg s.messages with
  | none => simp [WF.confirm_end, hm, WF.mergeOutput]
  | some last =>
    by_cases hy : (strContains (lowerStr (trimStr last.content)) "yes" ||
        strContains (lowerStr (trimStr last.content)) "yeah") = true <;>
      simp [WF.confirm_end, hm, hy, WF.mergeOutput]

/-- Merged attempt counter through `process_additional`: unchanged. -/
theorem attempts_process_additional (s : WF.WState) :
    (WF.mergeOutput (WF.process_additional s).1
        (WF.process_additional s).2).sentiment_attempts = s.sentiment_attempts := by
  cases hm : lastHumanMsg s.messages with
  | none => simp [WF.process_additional, hm, WF.mergeOutput]
  | some last => simp [WF.process_additional, hm, WF.mergeOutput]

/-- Merged attempt counter through `reschedule`: unchanged. -/
theorem attempts_reschedule (s : WF.WState) :
    (WF.mergeOutput (WF.reschedule s).1 (WF.reschedule s).2).sentiment_attempts =
      s.sentiment_attempts := by
  by_cases he : s.messages.isEmpty = true
  · simp [WF.reschedule, he, WF.mergeOutput]
  · cases hl : s.messages.getLast? with
    | none => simp [WF.reschedule, he, hl, WF.mergeOutput]
    | some last =>
      by_cases hh : last.isHuman = false <;>
        simp [WF.reschedule, he, hl, hh, WF.mergeOutput]

/-- Merged attempt counter through `process_notes`: unchanged. -/
theorem attempts_process_notes (s : WF.WState) :
    (WF.mergeOutput (WF.process_notes s).1 (WF.process_notes s).2).sentiment_attempts =
      s.sentiment_attempts := by
  by_cases he : s.messages.isEmpty = true
  · simp [WF.process_notes, he, WF.mergeOutput]
  · cases hl : s.messages.getLast? with
    | none => simp [WF.process_notes, he, hl, WF.mergeOutput]
    | some last =>
      by_cases hh : last.isHuman = false <;>
        simp [WF.process_notes, he, hl, hh, WF.mergeOutput]

/-- Merged attempt counter through `human_step`: unchanged. -/
theorem attempts_human_step (inp : String) (s : WF.WState) :
    (WF.mergeOutput (WF.human_step inp s).1 (WF.human_step inp s).2).sentiment_attempts =
      s.sentiment_attempts := by
  by_cases ht : trimStr inp = ""
  · simp [WF.human_step, ht, WF.mergeOutput]
  · by_cases hc : s.current_step = some "initialize"
    · simp [WF.human_step, ht, hc, WF.mergeOutput]
    · simp only [WF.human_step, ht, hc, WF.mergeOutput, if_false, if_neg]
      split
      · rfl
      · rfl

/-- Merged attempt counter through `analyze_sentiment`: unchanged, or
incremented from a value at most 2. -/
theorem attempts_analyze_sentiment (llm : WF.LLMResult) (s : WF.WState) :
    (WF.mergeOutput (WF.analyze_sentiment llm s).1
        (WF.analyze_sentiment llm s).2).sentiment_attempts = s.sentiment_attempts ∨
    ((WF.mergeOutput (WF.analyze_sentiment llm s).1
        (WF.analyze_sentiment llm s).2).sentiment_attempts = s.sentiment_attempts + 1 ∧
      s.sentiment_attempts ≤ 2) := by
  by_cases h3 : 3 ≤ s.sentiment_attempts
  · left; simp [WF.analyze_sentiment, h3, WF.mergeOutput]
  · by_cases he : s.messages.isEmpty = true
    · left; simp [WF.analyze_sentiment, h3, he, WF.mergeOutput]
    · cases hm : lastHumanMsg s.messages with
      | none => left; simp [WF.analyze_sentiment, h3, he, hm, WF.mergeOutput]
      | some m =>
        cases llm with
        | unavailable => left; simp [WF.analyze_sentiment, h3, he, hm, WF.mergeOutput]
        | err => left; simp [WF.analyze_sentiment, h3, he, hm, WF.mergeOutput]
        | ok content =>
          right
          refine ⟨?_, by omega⟩
          by_cases hp : upperStr (trimStr content) = "POSITIVE"
          · simp [WF.analyze_sentiment, h3, he, hm, hp, WF.mergeOutput]
          · by_cases hn : upperStr (trimStr content) = "NEGATIVE"
            · simp [WF.analyze_sentiment, h3, he, hm, hp, hn, WF.mergeOutput]
            · by_cases h2 : 2 ≤ s.sentiment_attempts <;>
                simp [WF.analyze_sentiment, h3, he, hm, hp, hn, h2, WF.mergeOutput]

/-- The merged attempt counter after one driver iteration either stays
put or increments from a value at most 2: only `analyze_sentiment`
touches it, and only below the cap. -/
theorem driverStep_attempts (env : WF.Env) (cs : String) (s : WF.WState) :
    (WF.driverStep env cs s).2.sentiment_attempts = s.sentiment_attempts ∨
    ((WF.driverStep env cs s).2.sentiment_attempts = s.sentiment_attempts + 1 ∧
      s.sentiment_attempts ≤ 2) := by
  by_cases hv : cs = "validate"
  · subst hv
    rw [driverStep_some env "validate" s WF.validate_input (by simp [WF.stepHandler])]
    left; rfl
  by_cases hi : cs = "initialize"
  · subst hi
    rw [driverStep_some env "initialize" s WF.initialize_workflow (by simp [WF.stepHandler])]
    left; rfl
  by_cases hpn : cs = "process_name"
  · subst hpn
    rw [driverStep_some env "process_name" s WF.process_name (by simp [WF.stepHandler])]
    left; exact attempts_process_name s
  by_cases hps : cs = "process_schedule"
  · subst hps
    rw [driverStep_some env "process_schedule" s WF.process_schedule
      (by simp [WF.stepHandler])]
    left; exact attempts_process_schedule s
  by_cases hce : cs = "confirm_end"
  · subst hce
    rw [driverStep_some env "confirm_end" s WF.confirm_end (by simp [WF.stepHandler])]
    left; exact attempts_confirm_end s
  by_cases hpa : cs = "process_additional"
  · subst hpa
    rw [driverStep_some env "process_additional" s WF.process_additional
      (by simp [WF.stepHandler])]
    left; exact attempts_process_additional s
  by_cases has : cs = "analyze_sentiment"
  · subst has
    rw [driverStep_some env "analyze_sentiment" s (WF.analyze_sentiment env.llm)
      (by simp [WF.stepHandler])]
    exact attempts_analyze_sentiment env.llm s
  by_cases hr : cs = "reschedule"
  · subst hr
    rw [driverStep_some env "reschedule" s WF.reschedule (by simp [WF.stepHandler])]
    left; exact attempts_reschedule s
  by_cases hpo : cs = "process_notes"
  · subst hpo
    rw [driverStep_some env "process_notes" s WF.process_notes (by simp [WF.stepHandler])]
    left; exact attempts_process_notes s
  by_cases hh : cs = "human_step"
  · subst hh
    rw [driverStep_some env "human_step" s (WF.human_step env.humanInput)
      (by simp [WF.stepHandler])]
    left; exact attempts_human_step env.humanInput s
  · rw [driverStep_none env cs s
      (by simp [WF.stepHandler, hv, hi, hpn, hps, hce, hpa, has, hr, hpo, hh])]
    left; rfl

/-- Claim C2: along every sequence of driver iterations starting from a
state whose counter is within the cap (in particular the initial state,
where it is 0), `sentiment_attempts` never exceeds 3; and once the cap is
reached, `analyze_sentiment` returns the terminal sentinel without
incrementing further (its update carries no counter and the merged state
keeps the entry value). -/
theorem sentiment_attempts_bounded :
    (∀ (envs : List WF.Env) (cs : String) (s : WF.WState),
        s.sentiment_attempts ≤ 3 →
        (WF.runSteps envs cs s).2.sentiment_attempts ≤ 3) ∧
    (∀ (llm : WF.LLMResult) (s : WF.WState), 3 ≤ s.sentiment_attempts →
        (WF.analyze_sentiment llm s).2.current_step = some WF.endLabel ∧
        (WF.analyze_sentiment llm s).2.sentiment_attempts = none ∧
        (WF.analyze_sentiment llm s).1 = s ∧
        (WF.mergeOutput (WF.analyze_sentiment llm s).1
            (WF.analyze_sentiment llm s).2).sentiment_attempts =
          s.sentiment_attempts) := by
  constructor
  · intro envs
    induction envs with
    | nil => intro cs s h; exact h
    | cons e rest ih =>
      intro cs s h
      have hstep := driverStep_attempts e cs s
      have : (WF.driverStep e cs s).2.sentiment_attempts ≤ 3 := by
        rcases hstep with h1 | ⟨h2, h3⟩ <;> omega
      simpa [WF.runSteps] using ih (WF.driverStep e cs s).1 (WF.driverStep e cs s).2 this
  · intro llm s h3
    refine ⟨?_, ?_, ?_, ?_⟩ <;> simp [WF.analyze_sentiment, h3, WF.mergeOutput]

/-- Concrete capped state for the C2 witness. -/
def c2capped : WF.WState :=
  { WF.initialState with messages := [.human "hm"], sentiment_attempts := 3 }

theorem sentiment_attempts_bounded_witness :
    (WF.runSteps [⟨"Ann", .err⟩, ⟨"yes", .ok "maybe"⟩] "validate"
        WF.initialState).2.sentiment_attempts ≤ 3 ∧
    ((WF.analyze_sentiment (.ok "maybe") c2capped).2.current_step = some WF.endLabel ∧
      (WF.analyze_sentiment (.ok "maybe") c2capped).2.sentiment_attempts = none ∧
      (WF.analyze_sentiment (.ok "maybe") c2capped).1 = c2capped ∧
      (WF.mergeOutput (WF.analyze_sentiment (.ok "maybe") c2capped).1
          (WF.analyze_sentiment (.ok "maybe") c2capped).2).sentiment_attempts =
        c2capped.sentiment_attempts) :=
  ⟨sentiment_attempts_bounded.1 [⟨"Ann", .err⟩, ⟨"yes", .ok "maybe"⟩] "validate"
      WF.initialState (by decide),
   sentiment_attempts_bounded.2 (.ok "maybe") c2capped (by decide)⟩

/-- Concrete state for the C3 failing input: a three-message log with a
capped counter, about to run `analyze_sentiment`. -/
def c3state : WF.WState :=
  { WF.initialState with
      messages := [.system WF.wfSystemPrompt, .ai WF.wfGreeting, .human "hm"],
      sentiment_attempts := 3 }

/-- Claim C3 (failing input): the merge of `main` REPLACES the top-level
list-valued `messages` key instead of appending, so one driver iteration
through `analyze_sentiment` shrinks the log from three messages to one --
the merged log is not an extension of the previous log. -/
theorem merge_replaces_message_log :
    c3state.messages.length = 3 ∧
    (WF.driverStep ⟨"", .err⟩ "analyze_sentiment" c3state).2.messages.length = 1 ∧
    (WF.driverStep ⟨"", .err⟩ "analyze_sentiment" c3state).2.messages =
      [.ai WF.handoffMsg] := by
  refine ⟨rfl, ?_, ?_⟩ <;> rfl

/-- Concrete state for the C5 counterexample: the driver of
`workflow_fixed.py` waiting at `human_step` right after the greeting. -/
def c5state : WF.WState :=
  { WF.initialState with messages := [.system WF.wfSystemPrompt, .ai WF.wfGreeting] }

/-- Claim C5 (counterexample): in `workflow_fixed.py` the input-collection
step `human_step` has no exit-keyword check -- on the input `exit` the
driver does not terminate but schedules the `process_name` handler, and
the word is recorded as an ordinary human turn. -/
theorem human_step_exit_keyword_not_terminal :
    (WF.driverStep ⟨"exit", .err⟩ "human_step" c5state).1 = "process_name" ∧
    "process_name" ≠ WF.endLabel ∧
    (WF.driverStep ⟨"exit", .err⟩ "human_step" c5state).2.messages.getLast? =
      some (.human "exit") := by
  refine ⟨?_, by decide, ?_⟩ <;> rfl

/-- Claim C5 (amended): the standalone agent loop terminates with the
farewell line and zero handler invocations as soon as a trimmed,
lower-cased input equals an exit keyword, whatever inputs follow; in
`workflow_fixed.py` the human step instead terminates the driver exactly
on empty (whitespace-only) input, leaving the state untouched. -/
theorem exit_keyword_amended :
    (∀ (respond : List Msg → Option String) (s : Agent007.AState)
        (raw : String) (rest : List String),
        lowerStr (trimStr raw) ∈ Agent007.exitKeywords →
        Agent007.runAgentLoop respond s (raw :: rest) = (s, ["Agent: Goodbye!"], 0)) ∧
    (∀ (env : WF.Env) (s : WF.WState), trimStr env.humanInput = "" →
        WF.driverStep env "human_step" s = (WF.endLabel, s)) := by
  constructor
  · intro respond s raw rest h
    simp [Agent007.runAgentLoop, h]
  · intro env s h
    rw [driverStep_some env "human_step" s (WF.human_step env.humanInput)
      (by simp [WF.stepHandler])]
    simp [WF.human_step, h, WF.mergeOutput]

theorem exit_keyword_amended_witness :
    Agent007.runAgentLoop (fun _ => none) Agent007.initialAState ["exit", "hello"] =
      (Agent007.initialAState, ["Agent: Goodbye!"], 0) ∧
    WF.driverStep ⟨"  ", .err⟩ "human_step" c5state = (WF.endLabel, c5state) :=
  ⟨exit_keyword_amended.1 (fun _ => none) Agent007.initialAState "exit" ["hello"]
      (by decide),
   exit_keyword_amended.2 ⟨"  ", .err⟩ c5state (by decide)⟩

/-- Concrete state for the C6 counterexample: name unknown, the user
replies with the full phrase. -/
def c6state : Bond7.BState :=
  ⟨none, [], [.ai Bond7.genericGreeting, .human ("my name is Alice")],
   "process_input", []⟩

/-- Claim C6 (counterexample): the capture step of `workflowbond7.py`
stores the *whole* trimmed reply as the name even when the prefix phrase
`my name is ` is present -- it performs no stripping, contradicting the
claimed extraction. -/
theorem bond7_capture_keeps_phrase :
    Bond7.process_input true (.ok none) c6state =
      some { user := some (some "my name is Alice"),
             messages := some [.ai (Bond7.niceToMeet "my name is Alice")],
             current_step := some "process_input" } ∧
    "my name is Alice" ≠ "Alice" := by
  refine ⟨rfl, by decide⟩

/-- Claim C6 (amended): only the standalone agent strips the phrase: in
the name-introduction context its `process_input` stores
`extractName` of the reply (text after the phrase when present, else the
trimmed raw text) and loops back to input processing, while the capture
steps of `workflowbond7.py` store the trimmed raw reply unconditionally. -/
theorem identity_capture_amended :
    (∀ (respond : List Msg → Option String) (s : Agent007.AState) (lh : Msg),
        lastHumanMsg s.messages = some lh →
        Agent007.isNameIntroduction s.messages = true →
        (Agent007.process_input respond s).userName =
          some (Agent007.extractName lh.content) ∧
        (Agent007.process_input respond s).current_step = "process_input") ∧
    (∀ (mavail : Bool) (ir : Bond7.IntentResult) (s : Bond7.BState) (latest : Msg),
        s.messages.getLast? = some latest →
        Bond7.nameCaptureCond s latest = true →
        Bond7.process_input mavail ir s =
          some { user := some (some (trimStr latest.content)),
                 messages := some [.ai (Bond7.niceToMeet (trimStr latest.content))],
                 current_step := some "process_input" }) ∧
    Agent007.extractName "my name is Alice" = "Alice" ∧
    Agent007.extractName "  Bob  " = "Bob" ∧
    Agent007.extractName "Hi, my name is Alice" = "Alice" := by
  refine ⟨?_, ?_, by decide, by decide, by decide⟩
  · intro respond s lh hlh hintro
    cases hr : respond (if Agent007.isNameIntroduction s.messages then
        { s with userName := some (Agent007.extractName lh.content) } else s).messages <;>
      simp [Agent007.process_input, hlh, hintro, hr]
  · intro mavail ir s latest hl hcap
    simp [Bond7.process_input, hl, hcap]

/-- Concrete standalone state for the C6 witness: the agent has just
asked for the name and the user replied with the phrase. -/
def c6aState : Agent007.AState :=
  { Agent007.initialAState with
      messages := [.ai Bond7.genericGreeting, .human "my name is Alice"] }

theorem identity_capture_amended_witness :
    ((Agent007.process_input (fun _ => none) c6aState).userName =
        some (Agent007.extractName "my name is Alice") ∧
      (Agent007.process_input (fun _ => none) c6aState).current_step =
        "process_input") ∧
    (Bond7.process_input true (.ok none) c6state =
      some { user := some (some (trimStr "my name is Alice")),
             messages := some [.ai (Bond7.niceToMeet (trimStr "my name is Alice"))],
             current_step := some "process_input" }) ∧
    Agent007.extractName "my name is Alice" = "Alice" :=
  ⟨identity_capture_amended.1 (fun _ => none) c6aState (.human "my name is Alice")
      (by rfl) (by decide),
   identity_capture_amended.2.1 true (.ok none) c6state (.human "my name is Alice")
      (by rfl) (by decide),
   identity_capture_amended.2.2.1⟩
